import Mathlib

/-!
Verification of the toast-notification samples of microsoft/winappCli.

The repository has two Rust source files:
  * src/samples/rust-app/src/main.rs: a console app whose
    `show_notification(message)` builds a one-slot toast (ToastText01)
    and whose `main` resolves the package identity step by step;
  * src/samples/tauri-app/src-tauri/src/lib.rs: tauri commands `greet`,
    `get_package_family_name` and `show_notification(title, body)`, the
    latter building a two-slot toast (ToastText02).

The Windows OS is modelled as an environment of oracles: each OS call the
code makes either succeeds (with the fixed semantics the code relies on)
or fails with an error string chosen by the environment, mirroring the
`windows::core::Result` values and the `map_err(|e| e.to_string())`
conversions of the source.  Every embedded function returns its result
together with the ordered trace of OS calls it performed, so that
properties such as "no submission attempt occurs" are statements about
the trace.
-/

/-- The two toast template enumerators used by the repository
(`ToastTemplateType::ToastText01` and `ToastTemplateType::ToastText02`). -/
inductive ToastTemplateType where
  | toastText01
  | toastText02
  deriving DecidableEq, Repr

/-- Number of text slots of each template: ToastText01 has one text node,
ToastText02 has two (title and body). -/
def ToastTemplateType.slotCount : ToastTemplateType → Nat
  | .toastText01 => 1
  | .toastText02 => 2

/-- The in-memory XML document returned by `GetTemplateContent`: the
template it was instantiated from, plus the contents appended to each of
its text nodes (slot i holds the list of text-node strings appended to
the i-th `<text>` element, empty when fresh). -/
structure ToastXml where
  template : ToastTemplateType
  slots : List (List String)
  deriving DecidableEq, Repr

/-- A fresh document for a template: one empty content list per text slot. -/
def ToastXml.fromTemplate (t : ToastTemplateType) : ToastXml :=
  { template := t, slots := List.replicate t.slotCount [] }

/-- `AppendChild` of a created text node on the i-th `<text>` element. -/
def ToastXml.appendToSlot (x : ToastXml) (i : Nat) (s : String) : ToastXml :=
  { x with slots := x.slots.set i ((x.slots.getD i []) ++ [s]) }

/-- One OS call made by the notification code, as recorded in a trace.
`showToast` carries the document wrapped in the submitted
`ToastNotification`. -/
inductive OsCall where
  | getTemplateContent (t : ToastTemplateType)
  | getElementsByTagName (tag : String)
  | createTextNode (s : String)
  | item (i : Nat)
  | appendChild (slot : Nat) (s : String)
  | createToastNotification
  | createToastNotifier
  | showToast (xml : ToastXml)
  deriving DecidableEq, Repr

/-- The OS environment for one notification call: for each OS call site of
the source, whether that call succeeds, and the error string it reports
when it fails (the source converts errors with `e.to_string()` or
propagates the `windows::core::Error`; either way the error's identity is
opaque to the code, so it is environment-chosen data here). -/
structure Env where
  templateOk : Bool
  templateErr : String
  getElemOk : Bool
  getElemErr : String
  createText0Ok : Bool
  createText0Err : String
  createText1Ok : Bool
  createText1Err : String
  item0Ok : Bool
  item0Err : String
  item1Ok : Bool
  item1Err : String
  append0Ok : Bool
  append0Err : String
  append1Ok : Bool
  append1Err : String
  createToastOk : Bool
  createToastErr : String
  notifierOk : Bool
  notifierErr : String
  showOk : Bool
  showErr : String
  deriving DecidableEq, Repr

namespace TauriApp

/-- Embeds `show_notification(title, body)` of
src/samples/tauri-app/src-tauri/src/lib.rs (the `target_os = "windows"`
branch, lines 36-74).  The call order follows the source exactly:
GetTemplateContent(ToastText02); GetElementsByTagName("text");
CreateTextNode(title); Item(0); AppendChild(title_node);
CreateTextNode(body); Item(1); AppendChild(body_node);
CreateToastNotification; CreateToastNotifier; Show.  Each `?` after
`map_err(|e| e.to_string())` becomes an early return of the error string;
the trace records every OS call made, including the failing one. -/
def show_notification (env : Env) (title body : String) :
    Except String Unit × List OsCall :=
  let tr := [OsCall.getTemplateContent ToastTemplateType.toastText02]
  if !env.templateOk then (Except.error env.templateErr, tr) else
  let toastXml := ToastXml.fromTemplate ToastTemplateType.toastText02
  let tr := tr ++ [OsCall.getElementsByTagName "text"]
  if !env.getElemOk then (Except.error env.getElemErr, tr) else
  let tr := tr ++ [OsCall.createTextNode title]
  if !env.createText0Ok then (Except.error env.createText0Err, tr) else
  let tr := tr ++ [OsCall.item 0]
  if !env.item0Ok then (Except.error env.item0Err, tr) else
  let tr := tr ++ [OsCall.appendChild 0 title]
  if !env.append0Ok then (Except.error env.append0Err, tr) else
  let toastXml := toastXml.appendToSlot 0 title
  let tr := tr ++ [OsCall.createTextNode body]
  if !env.createText1Ok then (Except.error env.createText1Err, tr) else
  let tr := tr ++ [OsCall.item 1]
  if !env.item1Ok then (Except.error env.item1Err, tr) else
  let tr := tr ++ [OsCall.appendChild 1 body]
  if !env.append1Ok then (Except.error env.append1Err, tr) else
  let toastXml := toastXml.appendToSlot 1 body
  let tr := tr ++ [OsCall.createToastNotification]
  if !env.createToastOk then (Except.error env.createToastErr, tr) else
  let tr := tr ++ [OsCall.createToastNotifier]
  if !env.notifierOk then (Except.error env.notifierErr, tr) else
  let tr := tr ++ [OsCall.showToast toastXml]
  if !env.showOk then (Except.error env.showErr, tr) else
  (Except.ok (), tr)

/-- Embeds the `not(target_os = "windows")` branch of `show_notification`
(lines 75-78): an unconditional error, no OS call.  The environment
parameter stands for the (irrelevant) host state. -/
def show_notification_nonwindows (_env : Env) (_title _body : String) :
    Except String Unit × List OsCall :=
  (Except.error "This feature is only supported on Windows", [])

/-- Embeds `greet(name)` (lines 2-5): the expansion of
`format!("Hello, {}! You've been greeted from Rust!", name)`. -/
def greet (name : String) : String :=
  "Hello, " ++ name ++ "! You've been greeted from Rust!"

end TauriApp

/-- The OS environment for an identity query: whether `Package::Current()`,
`package.Id()` and `id.FamilyName()` succeed, and the family-name string
the OS reports when they all do. -/
structure IdEnv where
  currentOk : Bool
  idOk : Bool
  familyNameOk : Bool
  familyName : String
  deriving DecidableEq, Repr

namespace TauriApp

/-- Embeds `get_package_family_name` of
src/samples/tauri-app/src-tauri/src/lib.rs (the `target_os = "windows"`
branch, lines 9-27): nested matches on `Package::Current()`,
`package.Id()`, `id.FamilyName()`, each `Err` arm replaced by its fixed
display string. -/
def get_package_family_name (env : IdEnv) : String :=
  if env.currentOk then
    if env.idOk then
      if env.familyNameOk then env.familyName
      else "Error retrieving Family Name"
    else "Error retrieving Package ID"
  else "No package identity"

/-- Embeds the `not(target_os = "windows")` branch of
`get_package_family_name` (lines 28-31). -/
def get_package_family_name_nonwindows (_env : IdEnv) : String :=
  "Not running on Windows"

end TauriApp

namespace RustApp

/-- Embeds `show_notification(message)` of
src/samples/rust-app/src/main.rs (lines 4-12).  Call order per the
source (Rust evaluates the receiver of `AppendChild` before its
argument): GetTemplateContent(ToastText01); GetElementsByTagName("text");
Item(0); CreateTextNode(message); AppendChild; CreateToastNotification;
CreateToastNotifier; Show.  Each `?` propagates the OS error. -/
def show_notification (env : Env) (message : String) :
    Except String Unit × List OsCall :=
  let tr := [OsCall.getTemplateContent ToastTemplateType.toastText01]
  if !env.templateOk then (Except.error env.templateErr, tr) else
  let toastXml := ToastXml.fromTemplate ToastTemplateType.toastText01
  let tr := tr ++ [OsCall.getElementsByTagName "text"]
  if !env.getElemOk then (Except.error env.getElemErr, tr) else
  let tr := tr ++ [OsCall.item 0]
  if !env.item0Ok then (Except.error env.item0Err, tr) else
  let tr := tr ++ [OsCall.createTextNode message]
  if !env.createText0Ok then (Except.error env.createText0Err, tr) else
  let tr := tr ++ [OsCall.appendChild 0 message]
  if !env.append0Ok then (Except.error env.append0Err, tr) else
  let toastXml := toastXml.appendToSlot 0 message
  let tr := tr ++ [OsCall.createToastNotification]
  if !env.createToastOk then (Except.error env.createToastErr, tr) else
  let tr := tr ++ [OsCall.createToastNotifier]
  if !env.notifierOk then (Except.error env.notifierErr, tr) else
  let tr := tr ++ [OsCall.showToast toastXml]
  if !env.showOk then (Except.error env.showErr, tr) else
  (Except.ok (), tr)

/-- Embeds the identity-resolution part of `main` of
src/samples/rust-app/src/main.rs (lines 15-31), as the list of lines it
prints: nested matches on `Package::Current()`, `package.Id()`,
`id.FamilyName()`; on full success it prints the family name and then
shows the "hello from rust" notification, reporting its error if any. -/
def main_output (idEnv : IdEnv) (notifEnv : Env) : List String :=
  if idEnv.currentOk then
    if idEnv.idOk then
      if idEnv.familyNameOk then
        ("Package Family Name: " ++ idEnv.familyName) ::
          (match (show_notification notifEnv "hello from rust").1 with
           | Except.ok _ => []
           | Except.error e => ["Error showing notification: " ++ e])
      else ["Error getting family name"]
    else ["Error getting package ID"]
  else ["Not packaged"]

end RustApp

/-- Modelled from the spec: the contract-violation error of
`build_and_show` for a field count other than 1 or 2.  The source has no
dispatcher (each sample hard-codes its arity), so the message is ours. -/
def contractViolationMsg : String :=
  "Invalid number of fields: expected 1 or 2"

/-- Modelled from the spec: the builder contract
`build_and_show(fields)` of section 4.2.  The field-count dispatch is not
in src/ (the samples hard-code one arity each); each valid branch is the
corresponding embedded source function, and any other length fails with a
contract violation before any OS call, per section 8 of the spec. -/
def build_and_show (env : Env) (fields : List String) :
    Except String Unit × List OsCall :=
  match fields with
  | [message] => RustApp.show_notification env message
  | [title, body] => TauriApp.show_notification env title body
  | _ => (Except.error contractViolationMsg, [])

/-- Converts the first failure, if any, to the call's result. -/
def outcomeOf : Option String → Except String Unit
  | none => Except.ok ()
  | some e => Except.error e

/-- The document submitted by the two-field builder on the happy path:
the fresh ToastText02 document with the title appended to slot 0 and the
body appended to slot 1. -/
def tauriBoundXml (title body : String) : ToastXml :=
  ((ToastXml.fromTemplate ToastTemplateType.toastText02).appendToSlot 0 title).appendToSlot
    1 body

/-- The full trace of the two-field builder when every OS call succeeds. -/
def tauriHappyTrace (title body : String) : List OsCall :=
  [OsCall.getTemplateContent ToastTemplateType.toastText02,
   OsCall.getElementsByTagName "text",
   OsCall.createTextNode title, OsCall.item 0, OsCall.appendChild 0 title,
   OsCall.createTextNode body, OsCall.item 1, OsCall.appendChild 1 body,
   OsCall.createToastNotification, OsCall.createToastNotifier,
   OsCall.showToast (tauriBoundXml title body)]

/-- How many of the two-field builder's 11 OS calls are performed in
environment `env`: execution is linear and stops right after the first
failing call. -/
def tauriStepsAttempted (env : Env) : Nat :=
  if !env.templateOk then 1
  else if !env.getElemOk then 2
  else if !env.createText0Ok then 3
  else if !env.item0Ok then 4
  else if !env.append0Ok then 5
  else if !env.createText1Ok then 6
  else if !env.item1Ok then 7
  else if !env.append1Ok then 8
  else if !env.createToastOk then 9
  else if !env.notifierOk then 10
  else 11

/-- The error of the first failing OS call of the two-field builder, or
`none` when every call succeeds. -/
def tauriFirstFailure (env : Env) : Option String :=
  if !env.templateOk then some env.templateErr
  else if !env.getElemOk then some env.getElemErr
  else if !env.createText0Ok then some env.createText0Err
  else if !env.item0Ok then some env.item0Err
  else if !env.append0Ok then some env.append0Err
  else if !env.createText1Ok then some env.createText1Err
  else if !env.item1Ok then some env.item1Err
  else if !env.append1Ok then some env.append1Err
  else if !env.createToastOk then some env.createToastErr
  else if !env.notifierOk then some env.notifierErr
  else if !env.showOk then some env.showErr
  else none

/-- The document submitted by the one-field builder on the happy path. -/
def rustBoundXml (message : String) : ToastXml :=
  (ToastXml.fromTemplate ToastTemplateType.toastText01).appendToSlot 0 message

/-- The full trace of the one-field builder when every OS call succeeds. -/
def rustHappyTrace (message : String) : List OsCall :=
  [OsCall.getTemplateContent ToastTemplateType.toastText01,
   OsCall.getElementsByTagName "text",
   OsCall.item 0, OsCall.createTextNode message, OsCall.appendChild 0 message,
   OsCall.createToastNotification, OsCall.createToastNotifier,
   OsCall.showToast (rustBoundXml message)]

/-- How many of the one-field builder's 8 OS calls are performed. -/
def rustStepsAttempted (env : Env) : Nat :=
  if !env.templateOk then 1
  else if !env.getElemOk then 2
  else if !env.item0Ok then 3
  else if !env.createText0Ok then 4
  else if !env.append0Ok then 5
  else if !env.createToastOk then 6
  else if !env.notifierOk then 7
  else 8

/-- The error of the first failing OS call of the one-field builder. -/
def rustFirstFailure (env : Env) : Option String :=
  if !env.templateOk then some env.templateErr
  else if !env.getElemOk then some env.getElemErr
  else if !env.item0Ok then some env.item0Err
  else if !env.createText0Ok then some env.createText0Err
  else if !env.append0Ok then some env.append0Err
  else if !env.createToastOk then some env.createToastErr
  else if !env.notifierOk then some env.notifierErr
  else if !env.showOk then some env.showErr
  else none

/-- The states of the spec's per-call state machine (section 4.2). -/
inductive BuildState where
  | unbuilt
  | templateLoaded
  | slotsBound
  | constructed
  | submitted
  deriving DecidableEq, Repr

/-- The state at which a two-field build terminates: calls 2-8 are the
slot-binding phase, call 9 is construction, calls 10-11 are submission. -/
def tauriBuildState (env : Env) : BuildState :=
  match tauriFirstFailure env with
  | none => BuildState.submitted
  | some _ =>
    if tauriStepsAttempted env ≤ 1 then BuildState.unbuilt
    else if tauriStepsAttempted env ≤ 8 then BuildState.templateLoaded
    else if tauriStepsAttempted env = 9 then BuildState.slotsBound
    else BuildState.constructed

/-- The state at which a one-field build terminates: calls 2-5 are the
slot-binding phase, call 6 is construction, calls 7-8 are submission. -/
def rustBuildState (env : Env) : BuildState :=
  match rustFirstFailure env with
  | none => BuildState.submitted
  | some _ =>
    if rustStepsAttempted env ≤ 1 then BuildState.unbuilt
    else if rustStepsAttempted env ≤ 5 then BuildState.templateLoaded
    else if rustStepsAttempted env = 6 then BuildState.slotsBound
    else BuildState.constructed

/-- The happy-path trace of `build_and_show` for a given field list. -/
def happyTrace (fields : List String) : List OsCall :=
  match fields with
  | [m] => rustHappyTrace m
  | [t, b] => tauriHappyTrace t b
  | _ => []

/-- OS calls performed by `build_and_show` for a given field list. -/
def stepsAttempted (env : Env) (fields : List String) : Nat :=
  match fields with
  | [_] => rustStepsAttempted env
  | [_, _] => tauriStepsAttempted env
  | _ => 0

/-- First failure of `build_and_show` for a given field list. -/
def firstFailure (env : Env) (fields : List String) : Option String :=
  match fields with
  | [_] => rustFirstFailure env
  | [_, _] => tauriFirstFailure env
  | _ => some contractViolationMsg

/-- Termination state of `build_and_show` for a given field list. -/
def buildState (env : Env) (fields : List String) : BuildState :=
  match fields with
  | [_] => rustBuildState env
  | [_, _] => tauriBuildState env
  | _ => BuildState.unbuilt

/-- Is this OS call a notifier submission (a `Show` call)? -/
def OsCall.isShowCall : OsCall → Bool
  | OsCall.showToast _ => true
  | _ => false

/-- Is this OS call a template fetch (`GetTemplateContent`)? -/
def OsCall.isTemplateFetch : OsCall → Bool
  | OsCall.getTemplateContent _ => true
  | _ => false

/-- Is this OS call a notification construction
(`CreateToastNotification`)? -/
def OsCall.isConstruction : OsCall → Bool
  | OsCall.createToastNotification => true
  | _ => false

/-- Is this OS call a notifier acquisition (`CreateToastNotifier`)? -/
def OsCall.isNotifierAcquisition : OsCall → Bool
  | OsCall.createToastNotifier => true
  | _ => false

/-- A concrete environment in which every OS call succeeds. -/
def envAllOk : Env :=
  ⟨true, "template error", true, "getElements error", true, "createTextNode title error",
   true, "createTextNode body error", true, "item 0 error", true, "item 1 error",
   true, "appendChild 0 error", true, "appendChild 1 error", true, "createToast error",
   true, "notifier error", true, "show error"⟩

/-- A concrete environment in which `GetTemplateContent` fails and every
other OS call would succeed. -/
def envTemplateFail : Env :=
  ⟨false, "template error", true, "getElements error", true, "createTextNode title error",
   true, "createTextNode body error", true, "item 0 error", true, "item 1 error",
   true, "appendChild 0 error", true, "appendChild 1 error", true, "createToast error",
   true, "notifier error", true, "show error"⟩

/-- A concrete identity environment with no package identity:
`Package::Current()` fails. -/
def idEnvNoIdentity : IdEnv :=
  ⟨false, true, true, "Fabrikam.Sample_abcdef123"⟩

/-- A concrete identity environment in which `Package::Current()` succeeds
but `package.Id()` fails. -/
def idEnvIdFail : IdEnv :=
  ⟨true, false, true, "Fabrikam.Sample_abcdef123"⟩

theorem tauri_characterization (env : Env) (title body : String) :
    TauriApp.show_notification env title body =
      (outcomeOf (tauriFirstFailure env),
       (tauriHappyTrace title body).take (tauriStepsAttempted env)) := by
  obtain ⟨tOk, tE, geOk, geE, c0Ok, c0E, c1Ok, c1E, i0Ok, i0E, i1Ok, i1E,
    a0Ok, a0E, a1Ok, a1E, cnOk, cnE, nOk, nE, sOk, sE⟩ := env
  cases tOk with
  | false => rfl
  | true => cases geOk with
    | false => rfl
    | true => cases c0Ok with
      | false => rfl
      | true => cases i0Ok with
        | false => rfl
        | true => cases a0Ok with
          | false => rfl
          | true => cases c1Ok with
            | false => rfl
            | true => cases i1Ok with
              | false => rfl
              | true => cases a1Ok with
                | false => rfl
                | true => cases cnOk with
                  | false => rfl
                  | true => cases nOk with
                    | false => rfl
                    | true => cases sOk with
                      | false => rfl
                      | true => rfl

theorem rust_characterization (env : Env) (message : String) :
    RustApp.show_notification env message =
      (outcomeOf (rustFirstFailure env),
       (rustHappyTrace message).take (rustStepsAttempted env)) := by
  obtain ⟨tOk, tE, geOk, geE, c0Ok, c0E, c1Ok, c1E, i0Ok, i0E, i1Ok, i1E,
    a0Ok, a0E, a1Ok, a1E, cnOk, cnE, nOk, nE, sOk, sE⟩ := env
  cases tOk with
  | false => rfl
  | true => cases geOk with
    | false => rfl
    | true => cases i0Ok with
      | false => rfl
      | true => cases c0Ok with
        | false => rfl
        | true => cases a0Ok with
          | false => rfl
          | true => cases cnOk with
            | false => rfl
            | true => cases nOk with
              | false => rfl
              | true => cases sOk with
                | false => rfl
                | true => rfl

theorem tauri_ok_iff (env : Env) (title body : String) :
    (TauriApp.show_notification env title body).1 = Except.ok () ↔
      tauriFirstFailure env = none := by
  rw [tauri_characterization]
  cases h : tauriFirstFailure env <;> simp [outcomeOf]

theorem rust_ok_iff (env : Env) (message : String) :
    (RustApp.show_notification env message).1 = Except.ok () ↔
      rustFirstFailure env = none := by
  rw [rust_characterization]
  cases h : rustFirstFailure env <;> simp [outcomeOf]

theorem tauri_submitted_iff (env : Env) :
    tauriBuildState env = BuildState.submitted ↔ tauriFirstFailure env = none := by
  unfold tauriBuildState
  cases h : tauriFirstFailure env with
  | none => simp
  | some e => split_ifs <;> simp

theorem rust_submitted_iff (env : Env) :
    rustBuildState env = BuildState.submitted ↔ rustFirstFailure env = none := by
  unfold rustBuildState
  cases h : rustFirstFailure env with
  | none => simp
  | some e => split_ifs <;> simp

theorem tauri_none_steps (env : Env) (h : tauriFirstFailure env = none) :
    tauriStepsAttempted env = 11 := by
  obtain ⟨tOk, tE, geOk, geE, c0Ok, c0E, c1Ok, c1E, i0Ok, i0E, i1Ok, i1E,
    a0Ok, a0E, a1Ok, a1E, cnOk, cnE, nOk, nE, sOk, sE⟩ := env
  cases tOk with
  | false => exact Option.noConfusion h
  | true => cases geOk with
    | false => exact Option.noConfusion h
    | true => cases c0Ok with
      | false => exact Option.noConfusion h
      | true => cases i0Ok with
        | false => exact Option.noConfusion h
        | true => cases a0Ok with
          | false => exact Option.noConfusion h
          | true => cases c1Ok with
            | false => exact Option.noConfusion h
            | true => cases i1Ok with
              | false => exact Option.noConfusion h
              | true => cases a1Ok with
                | false => exact Option.noConfusion h
                | true => cases cnOk with
                  | false => exact Option.noConfusion h
                  | true => cases nOk with
                    | false => exact Option.noConfusion h
                    | true => rfl

theorem rust_none_steps (env : Env) (h : rustFirstFailure env = none) :
    rustStepsAttempted env = 8 := by
  obtain ⟨tOk, tE, geOk, geE, c0Ok, c0E, c1Ok, c1E, i0Ok, i0E, i1Ok, i1E,
    a0Ok, a0E, a1Ok, a1E, cnOk, cnE, nOk, nE, sOk, sE⟩ := env
  cases tOk with
  | false => exact Option.noConfusion h
  | true => cases geOk with
    | false => exact Option.noConfusion h
    | true => cases i0Ok with
      | false => exact Option.noConfusion h
      | true => cases c0Ok with
        | false => exact Option.noConfusion h
        | true => cases a0Ok with
          | false => exact Option.noConfusion h
          | true => cases cnOk with
            | false => exact Option.noConfusion h
            | true => cases nOk with
              | false => exact Option.noConfusion h
              | true => rfl

theorem tauri_trace_head (env : Env) (title body : String) :
    (TauriApp.show_notification env title body).2.head? =
      some (OsCall.getTemplateContent ToastTemplateType.toastText02) := by
  obtain ⟨tOk, tE, geOk, geE, c0Ok, c0E, c1Ok, c1E, i0Ok, i0E, i1Ok, i1E,
    a0Ok, a0E, a1Ok, a1E, cnOk, cnE, nOk, nE, sOk, sE⟩ := env
  cases tOk with
  | false => rfl
  | true => cases geOk with
    | false => rfl
    | true => cases c0Ok with
      | false => rfl
      | true => cases i0Ok with
        | false => rfl
        | true => cases a0Ok with
          | false => rfl
          | true => cases c1Ok with
            | false => rfl
            | true => cases i1Ok with
              | false => rfl
              | true => cases a1Ok with
                | false => rfl
                | true => cases cnOk with
                  | false => rfl
                  | true => cases nOk with
                    | false => rfl
                    | true => cases sOk with
                      | false => rfl
                      | true => rfl

theorem rust_trace_head (env : Env) (message : String) :
    (RustApp.show_notification env message).2.head? =
      some (OsCall.getTemplateContent ToastTemplateType.toastText01) := by
  obtain ⟨tOk, tE, geOk, geE, c0Ok, c0E, c1Ok, c1E, i0Ok, i0E, i1Ok, i1E,
    a0Ok, a0E, a1Ok, a1E, cnOk, cnE, nOk, nE, sOk, sE⟩ := env
  cases tOk with
  | false => rfl
  | true => cases geOk with
    | false => rfl
    | true => cases i0Ok with
      | false => rfl
      | true => cases c0Ok with
        | false => rfl
        | true => cases a0Ok with
          | false => rfl
          | true => cases cnOk with
            | false => rfl
            | true => cases nOk with
              | false => rfl
              | true => cases sOk with
                | false => rfl
                | true => rfl

/-- Claim C1: template selection is determined by the number of fields:
for every call with exactly 1 field the builder first fetches the
one-slot template ToastText01, and for every call with exactly 2 fields
it first fetches the two-slot template ToastText02. -/
theorem template_selection_by_field_count (env : Env) (fields : List String) :
    (fields.length = 1 →
      (build_and_show env fields).2.head? =
        some (OsCall.getTemplateContent ToastTemplateType.toastText01)) ∧
    (fields.length = 2 →
      (build_and_show env fields).2.head? =
        some (OsCall.getTemplateContent ToastTemplateType.toastText02)) := by
  rcases fields with _ | ⟨a, _ | ⟨b, _ | ⟨c, rest⟩⟩⟩
  · exact ⟨fun h => by simp at h, fun h => by simp at h⟩
  · exact ⟨fun _ => rust_trace_head env a, fun h => by simp at h⟩
  · exact ⟨fun h => by simp at h, fun _ => tauri_trace_head env a b⟩
  · refine ⟨fun h => ?_, fun h => ?_⟩ <;>
      (simp only [List.length_cons] at h; omega)

/-- Witness for C1: at one and two concrete fields, the first OS call is
the fetch of the matching template. -/
theorem template_selection_by_field_count_witness :
    ((["hello from rust"] : List String).length = 1 ∧
      (build_and_show envAllOk ["hello from rust"]).2.head? =
        some (OsCall.getTemplateContent ToastTemplateType.toastText01)) ∧
    ((["Title", "Body"] : List String).length = 2 ∧
      (build_and_show envAllOk ["Title", "Body"]).2.head? =
        some (OsCall.getTemplateContent ToastTemplateType.toastText02)) :=
  ⟨⟨rfl, (template_selection_by_field_count envAllOk ["hello from rust"]).1 rfl⟩,
   ⟨rfl, (template_selection_by_field_count envAllOk ["Title", "Body"]).2 rfl⟩⟩

/-- Claim C6: for every field sequence whose length is neither 1 nor 2,
`build_and_show` fails with the contract-violation error and makes no OS
call (its trace is empty). -/
theorem invalid_field_count_contract_violation (env : Env) (fields : List String)
    (h1 : fields.length ≠ 1) (h2 : fields.length ≠ 2) :
    build_and_show env fields = (Except.error contractViolationMsg, []) := by
  rcases fields with _ | ⟨a, _ | ⟨b, _ | ⟨c, rest⟩⟩⟩
  · rfl
  · exact absurd rfl h1
  · exact absurd rfl h2
  · rfl

/-- Witness for C6: the empty field list is rejected without OS calls. -/
theorem invalid_field_count_contract_violation_witness :
    (([] : List String).length ≠ 1) ∧ (([] : List String).length ≠ 2) ∧
    build_and_show envAllOk [] = (Except.error contractViolationMsg, []) :=
  ⟨by decide, by decide,
   invalid_field_count_contract_violation envAllOk [] (by decide) (by decide)⟩

/-- Claim C3 (counterexample): the resolver does not fold every OS-level
failure into the "no identity" outcome: when `Package::Current()`
succeeds but `package.Id()` fails, the result is the distinct string
"Error retrieving Package ID", which is neither the no-identity outcome
nor a family name. -/
theorem identity_failures_not_folded_cex :
    TauriApp.get_package_family_name idEnvIdFail = "Error retrieving Package ID" ∧
    TauriApp.get_package_family_name idEnvIdFail ≠ "No package identity" ∧
    TauriApp.get_package_family_name idEnvIdFail ≠ idEnvIdFail.familyName := by
  refine ⟨rfl, ?_, ?_⟩ <;> decide

/-- Claim C3 (amended): the resolver always returns a plain string and
never surfaces a hard failure; a failure of the current-package query is
folded into the "no identity" outcome, while failures at the package-id
or family-name stages yield their own distinct error strings.  The
rust-app's `main` behaves the same way, printing "Not packaged" for a
current-package failure and a distinct message for a package-id failure. -/
theorem identity_resolver_behaviour (env : IdEnv) :
    (env.currentOk = false →
      TauriApp.get_package_family_name env = "No package identity") ∧
    (env.currentOk = true → env.idOk = false →
      TauriApp.get_package_family_name env = "Error retrieving Package ID") ∧
    (env.currentOk = true → env.idOk = true → env.familyNameOk = false →
      TauriApp.get_package_family_name env = "Error retrieving Family Name") ∧
    (env.currentOk = true → env.idOk = true → env.familyNameOk = true →
      TauriApp.get_package_family_name env = env.familyName) ∧
    (∀ notifEnv : Env, env.currentOk = false →
      RustApp.main_output env notifEnv = ["Not packaged"]) ∧
    (∀ notifEnv : Env, env.currentOk = true → env.idOk = false →
      RustApp.main_output env notifEnv = ["Error getting package ID"]) := by
  obtain ⟨c, i, f, n⟩ := env
  cases c <;> cases i <;> cases f <;>
    simp [TauriApp.get_package_family_name, RustApp.main_output]

/-- Witness for the amended C3: a host without package identity gets the
no-identity outcome. -/
theorem identity_resolver_behaviour_witness :
    idEnvNoIdentity.currentOk = false ∧
    TauriApp.get_package_family_name idEnvNoIdentity = "No package identity" :=
  ⟨rfl, (identity_resolver_behaviour idEnvNoIdentity).1 rfl⟩

/-- Claim C8: on a non-Windows host, `show_notification` always returns
the fixed error with no OS call, and `get_package_family_name` always
returns "Not running on Windows", for every input and host state. -/
theorem nonwindows_fixed_results (env : Env) (idEnv : IdEnv) (title body : String) :
    TauriApp.show_notification_nonwindows env title body =
      (Except.error "This feature is only supported on Windows", ([] : List OsCall)) ∧
    TauriApp.get_package_family_name_nonwindows idEnv = "Not running on Windows" :=
  ⟨rfl, rfl⟩

/-- Claim C9: `get_package_family_name` is total on Windows: for every
outcome of the three nested OS queries its result is exactly one of the
package family name, "No package identity", "Error retrieving Package
ID", or "Error retrieving Family Name". -/
theorem get_package_family_name_total (env : IdEnv) :
    TauriApp.get_package_family_name env = env.familyName ∨
    TauriApp.get_package_family_name env = "No package identity" ∨
    TauriApp.get_package_family_name env = "Error retrieving Package ID" ∨
    TauriApp.get_package_family_name env = "Error retrieving Family Name" := by
  obtain ⟨c, i, f, n⟩ := env
  cases c <;> cases i <;> cases f <;> simp [TauriApp.get_package_family_name]

/-- Claim C10: `greet` is a pure function returning exactly the greeting
string built around its input. -/
theorem greet_value (name : String) :
    TauriApp.greet name = "Hello, " ++ name ++ "! You've been greeted from Rust!" :=
  rfl

/-- Claim C2: field order is preserved in binding: whatever the
environment does, any document the two-field builder submits has the
title as the sole content of text slot 0 and the body as the sole
content of text slot 1; the body is only ever bound after the title has
been bound; and the two bind operations occur in title-then-body order
in the builder's call sequence. -/
theorem field_order_preserved_in_binding (env : Env) (title body : String) :
    (∀ xml : ToastXml,
        OsCall.showToast xml ∈ (TauriApp.show_notification env title body).2 →
          xml.slots = [[title], [body]]) ∧
    (OsCall.appendChild 1 body ∈ (TauriApp.show_notification env title body).2 →
        OsCall.appendChild 0 title ∈ (TauriApp.show_notification env title body).2) ∧
    List.Sublist [OsCall.appendChild 0 title, OsCall.appendChild 1 body]
      (tauriHappyTrace title body) := by
  refine ⟨?_, ?_, ?_⟩
  · intro xml hmem
    rw [tauri_characterization] at hmem
    have hmem2 : OsCall.showToast xml ∈ tauriHappyTrace title body :=
      List.take_subset _ _ hmem
    simp only [tauriHappyTrace, List.mem_cons, List.not_mem_nil, or_false] at hmem2
    rcases hmem2 with h|h|h|h|h|h|h|h|h|h|h
    · exact OsCall.noConfusion h
    · exact OsCall.noConfusion h
    · exact OsCall.noConfusion h
    · exact OsCall.noConfusion h
    · exact OsCall.noConfusion h
    · exact OsCall.noConfusion h
    · exact OsCall.noConfusion h
    · exact OsCall.noConfusion h
    · exact OsCall.noConfusion h
    · exact OsCall.noConfusion h
    · injection h with hx
      rw [hx]
      rfl
  · intro hmem
    obtain ⟨tOk, tE, geOk, geE, c0Ok, c0E, c1Ok, c1E, i0Ok, i0E, i1Ok, i1E,
      a0Ok, a0E, a1Ok, a1E, cnOk, cnE, nOk, nE, sOk, sE⟩ := env
    cases tOk with
    | false => simp_all [TauriApp.show_notification]
    | true => cases geOk with
      | false => simp_all [TauriApp.show_notification]
      | true => cases c0Ok with
        | false => simp_all [TauriApp.show_notification]
        | true => cases i0Ok with
          | false => simp_all [TauriApp.show_notification]
          | true => cases a0Ok with
            | false => simp_all [TauriApp.show_notification]
            | true => cases c1Ok with
              | false => simp_all [TauriApp.show_notification]
              | true => cases i1Ok with
                | false => simp_all [TauriApp.show_notification]
                | true => cases a1Ok with
                  | false => simp_all [TauriApp.show_notification]
                  | true => cases cnOk with
                    | false => simp_all [TauriApp.show_notification]
                    | true => cases nOk with
                      | false => simp_all [TauriApp.show_notification]
                      | true => cases sOk with
                        | false => simp_all [TauriApp.show_notification]
                        | true => simp_all [TauriApp.show_notification]
  · simp only [tauriHappyTrace]
    apply List.Sublist.cons
    apply List.Sublist.cons
    apply List.Sublist.cons
    apply List.Sublist.cons
    apply List.Sublist.cons₂
    apply List.Sublist.cons
    apply List.Sublist.cons
    apply List.Sublist.cons₂
    exact List.nil_sublist _

/-- Witness for C2: in the all-success environment, the submitted
document carries slot 0 = "Title" and slot 1 = "Body". -/
theorem field_order_preserved_in_binding_witness :
    OsCall.showToast (tauriBoundXml "Title" "Body") ∈
      (TauriApp.show_notification envAllOk "Title" "Body").2 ∧
    (tauriBoundXml "Title" "Body").slots = [["Title"], ["Body"]] :=
  ⟨by decide,
   (field_order_preserved_in_binding envAllOk "Title" "Body").1
     (tauriBoundXml "Title" "Body") (by decide)⟩

/-- Claim C4: when the OS template service fails, `build_and_show`
returns the template-fetch error, its trace is just the failed template
fetch, and in particular no notifier is obtained and no Show call is
made. -/
theorem template_failure_stops_before_submission (env : Env) (fields : List String)
    (hlen : fields.length = 1 ∨ fields.length = 2)
    (hfail : env.templateOk = false) :
    (build_and_show env fields).1 = Except.error env.templateErr ∧
    (build_and_show env fields).2 =
      [OsCall.getTemplateContent
        (if fields.length = 1 then ToastTemplateType.toastText01
         else ToastTemplateType.toastText02)] ∧
    OsCall.createToastNotifier ∉ (build_and_show env fields).2 ∧
    ∀ xml, OsCall.showToast xml ∉ (build_and_show env fields).2 := by
  rcases fields with _ | ⟨a, _ | ⟨b, _ | ⟨c, rest⟩⟩⟩
  · rcases hlen with h|h <;> simp at h
  · simp [build_and_show, RustApp.show_notification, hfail]
  · simp [build_and_show, TauriApp.show_notification, hfail]
  · rcases hlen with h|h <;> (simp only [List.length_cons] at h; omega)

/-- Witness for C4: with a failing template service and two concrete
fields, the call returns the template error. -/
theorem template_failure_stops_before_submission_witness :
    ((["Title", "Body"] : List String).length = 1 ∨
      (["Title", "Body"] : List String).length = 2) ∧
    envTemplateFail.templateOk = false ∧
    (build_and_show envTemplateFail ["Title", "Body"]).1 =
      Except.error envTemplateFail.templateErr :=
  ⟨Or.inr rfl, rfl,
   (template_failure_stops_before_submission envTemplateFail ["Title", "Body"]
      (Or.inr rfl) rfl).1⟩

/-- Claim C5: each `build_and_show` invocation is a linear state machine:
its result is the first failing step's error (success when none fails),
its trace is exactly the happy-path call sequence cut off right after the
first failing call, and it succeeds if and only if the machine reaches
the Submitted state. -/
theorem build_and_show_state_machine (env : Env) (fields : List String)
    (hlen : fields.length = 1 ∨ fields.length = 2) :
    (build_and_show env fields).1 = outcomeOf (firstFailure env fields) ∧
    (build_and_show env fields).2 =
      (happyTrace fields).take (stepsAttempted env fields) ∧
    ((build_and_show env fields).1 = Except.ok () ↔
      buildState env fields = BuildState.submitted) := by
  rcases fields with _ | ⟨a, _ | ⟨b, _ | ⟨c, rest⟩⟩⟩
  · rcases hlen with h|h <;> simp at h
  · refine ⟨congrArg Prod.fst (rust_characterization env a),
      congrArg Prod.snd (rust_characterization env a), ?_⟩
    rw [show (build_and_show env [a]).1 = (RustApp.show_notification env a).1 from rfl,
      rust_ok_iff]
    exact (rust_submitted_iff env).symm
  · refine ⟨congrArg Prod.fst (tauri_characterization env a b),
      congrArg Prod.snd (tauri_characterization env a b), ?_⟩
    rw [show (build_and_show env [a, b]).1 =
        (TauriApp.show_notification env a b).1 from rfl,
      tauri_ok_iff]
    exact (tauri_submitted_iff env).symm
  · rcases hlen with h|h <;> (simp only [List.length_cons] at h; omega)

/-- Witness for C5: the state-machine characterization at a concrete
all-success environment and two concrete fields. -/
theorem build_and_show_state_machine_witness :
    ((["Title", "Body"] : List String).length = 1 ∨
      (["Title", "Body"] : List String).length = 2) ∧
    ((build_and_show envAllOk ["Title", "Body"]).1 =
        outcomeOf (firstFailure envAllOk ["Title", "Body"]) ∧
      (build_and_show envAllOk ["Title", "Body"]).2 =
        (happyTrace ["Title", "Body"]).take
          (stepsAttempted envAllOk ["Title", "Body"]) ∧
      ((build_and_show envAllOk ["Title", "Body"]).1 = Except.ok () ↔
        buildState envAllOk ["Title", "Body"] = BuildState.submitted)) :=
  ⟨Or.inr rfl, build_and_show_state_machine envAllOk ["Title", "Body"] (Or.inr rfl)⟩

/-- Claim C7: no deduplication and no caching: two successive successful
calls of `build_and_show` with identical fields each perform their own
template fetch, construction, notifier acquisition and submission, so the
combined trace of the two calls holds two of each. -/
theorem repeated_calls_two_submissions (env : Env) (fields : List String)
    (hlen : fields.length = 1 ∨ fields.length = 2)
    (hok : (build_and_show env fields).1 = Except.ok ()) :
    ((build_and_show env fields).2 ++ (build_and_show env fields).2).countP
        OsCall.isShowCall = 2 ∧
    ((build_and_show env fields).2 ++ (build_and_show env fields).2).countP
        OsCall.isTemplateFetch = 2 ∧
    ((build_and_show env fields).2 ++ (build_and_show env fields).2).countP
        OsCall.isConstruction = 2 ∧
    ((build_and_show env fields).2 ++ (build_and_show env fields).2).countP
        OsCall.isNotifierAcquisition = 2 := by
  rcases fields with _ | ⟨a, _ | ⟨b, _ | ⟨c, rest⟩⟩⟩
  · rcases hlen with h|h <;> simp at h
  · have hnone : rustFirstFailure env = none := (rust_ok_iff env a).1 hok
    have htr : (build_and_show env [a]).2 = rustHappyTrace a := by
      calc (build_and_show env [a]).2
          = (rustHappyTrace a).take (rustStepsAttempted env) :=
            congrArg Prod.snd (rust_characterization env a)
        _ = (rustHappyTrace a).take 8 := by rw [rust_none_steps env hnone]
        _ = rustHappyTrace a := rfl
    rw [htr]
    exact ⟨rfl, rfl, rfl, rfl⟩
  · have hnone : tauriFirstFailure env = none := (tauri_ok_iff env a b).1 hok
    have htr : (build_and_show env [a, b]).2 = tauriHappyTrace a b := by
      calc (build_and_show env [a, b]).2
          = (tauriHappyTrace a b).take (tauriStepsAttempted env) :=
            congrArg Prod.snd (tauri_characterization env a b)
        _ = (tauriHappyTrace a b).take 11 := by rw [tauri_none_steps env hnone]
        _ = tauriHappyTrace a b := rfl
    rw [htr]
    exact ⟨rfl, rfl, rfl, rfl⟩
  · rcases hlen with h|h <;> (simp only [List.length_cons] at h; omega)

/-- Witness for C7: two successful calls with the same two concrete
fields submit twice. -/
theorem repeated_calls_two_submissions_witness :
    ((["Title", "Body"] : List String).length = 1 ∨
      (["Title", "Body"] : List String).length = 2) ∧
    (build_and_show envAllOk ["Title", "Body"]).1 = Except.ok () ∧
    ((build_and_show envAllOk ["Title", "Body"]).2 ++
        (build_and_show envAllOk ["Title", "Body"]).2).countP
      OsCall.isShowCall = 2 :=
  ⟨Or.inr rfl, rfl,
   (repeated_calls_two_submissions envAllOk ["Title", "Body"]
      (Or.inr rfl) rfl).1⟩
